import Mathlib

/-!
Verification development for the survey-manager command executor
(`command_astrobee.py`): a shallow embedding of the correlated command
client (`CommandExecutor`), the bridged process supervisor
(`ProcessExecutor`) and the two retry routines, together with theorems
about the behaviour each one implements.

Conventions of the embedding:
* Python integers are `Int` (exit codes) or `Nat` (counters);
* text handled character-wise (substring tests, case folding, chunking)
  is `List Char`; text compared only for equality is `String`;
* asynchronous callbacks are modelled by a delivery schedule
  `Nat → List _` giving the messages processed between two successive
  iterations of the polling loop;
* loops whose termination is in question take an explicit fuel
  argument; a `none` result means the loop has not returned within
  that many iterations.
-/

/-- `MAX_COUNTER` constant of the source (retry budget of the polls). -/
def MAX_COUNTER : Nat := 10

/-- `CHUNK_SIZE` constant of the source (socket send chunking). -/
def CHUNK_SIZE : Nat := 1024

/-- Constant `AckCompletedStatus.NOT` of the `ff_msgs` ack message:
the command has not completed yet (non-terminal status). -/
def AckCompletedStatus.NOT : Nat := 0

/-- Constant `AckCompletedStatus.OK` of the `ff_msgs` ack message:
the command completed successfully. -/
def AckCompletedStatus.OK : Nat := 1

/-- An `AckStamped` message as used by `CommandExecutor.ack_callback`:
`cmd_id` of the acknowledged command, `completed_status.status`
(flattened to `status`), and the human-readable `message`. -/
structure AckMsg where
  cmd_id : String
  status : Nat
  message : String
deriving DecidableEq

/-- The fields of `CommandExecutor` touched by `ack_callback` and
`publish_and_wait_response`: the awaiting flag `ack_needed`, the last
stored ack `ack_msg` (in Python the attribute does not exist until the
first callback fires; it is only ever read after `ack_needed` has been
set to `False` by the callback, which always stores the message first,
so the initial value is never observed), and `unique_cmd_id` of the
in-flight command. -/
structure ClientState where
  ack_needed : Bool
  ack_msg : AckMsg
  unique_cmd_id : String
deriving DecidableEq

/-- `CommandExecutor.ack_callback`: store the message and clear
`ack_needed` exactly when an ack is awaited and the correlation
identifier matches `unique_cmd_id`; otherwise leave state unchanged. -/
def ack_callback (s : ClientState) (msg : AckMsg) : ClientState :=
  if s.ack_needed = true ∧ msg.cmd_id = s.unique_cmd_id then
    { s with ack_msg := msg, ack_needed := false }
  else s

/-- The `while counter < MAX_COUNTER` loop of
`CommandExecutor.publish_and_wait_response`.  `sched t` lists the acks
the subscriber callback processes before the loop's `t`-th condition
check.  Arguments mirror the Python locals: current state, `counter`,
the schedule index `t`, and the number of `rospy.sleep(1)` calls
performed so far (`slept`, returned with the result so the sleep count
is observable).  `none` means the loop has not returned within `fuel`
iterations. -/
def waitLoop (sched : Nat → List AckMsg) :
    ClientState → Nat → Nat → Nat → Nat → Option (Nat × Nat)
  | _, _, _, _, 0 => none
  | s, counter, t, slept, fuel + 1 =>
    if counter < MAX_COUNTER then
      let s' := (sched t).foldl ack_callback s
      if s'.ack_needed = false then
        if s'.ack_msg.status = AckCompletedStatus.NOT then
          -- "Command is being executed and has not completed.":
          -- re-arm the wait; neither `counter` nor the sleep count moves
          waitLoop sched { s' with ack_needed := true } counter (t + 1) slept fuel
        else if s'.ack_msg.status = AckCompletedStatus.OK then
          some (0, slept)
        else
          some (1, slept)
      else
        -- no ack yet: rospy.sleep(1); counter += 1
        waitLoop sched s' (counter + 1) (t + 1) (slept + 1) fuel
    else
      some (1, slept)

/-- `CommandExecutor.publish_and_wait_response`: early-out on shutdown,
set `ack_needed := True`, publish (the publication itself is the bus's
business; its effect is the ack schedule `sched`), then poll. -/
def publish_and_wait_response (shutdown : Bool) (sched : Nat → List AckMsg)
    (s : ClientState) (fuel : Nat) : Option (Nat × Nat) :=
  if shutdown then some (1, 0)
  else waitLoop sched { s with ack_needed := true } 0 0 0 fuel

/-- `beginsWith pat s` = `s.startswith(pat)` on character lists. -/
def beginsWith : List Char → List Char → Bool
  | [], _ => true
  | _ :: _, [] => false
  | a :: ps, b :: bs => a == b && beginsWith ps bs

/-- Python's `needle in hay` substring test on character lists. -/
def strIn (needle : List Char) : List Char → Bool
  | [] => beginsWith needle []
  | c :: t => beginsWith needle (c :: t) || strIn needle t

/-- A `PlanStatusStamped` message as used by
`CommandExecutor.plan_status_callback`: plan `name`, current `point`,
and `status.status` (flattened to `status`). -/
structure PlanMsg where
  name : List Char
  point : Nat
  status : Int
deriving DecidableEq

/-- `CommandExecutor.plan_status_callback`, as the update it performs on
`plan_status_needed` (it never changes `plan_name`): while the flag is
set, a message whose name contains `plan_name` clears it when the step
status is 3 (terminal), and a message for a different plan clears it
unconditionally ("Plan changed, exiting."). -/
def plan_status_callback (plan_name : List Char) (needed : Bool)
    (msg : PlanMsg) : Bool :=
  if needed = true then
    if strIn plan_name msg.name then
      if msg.status = 3 then false else needed
    else false
  else needed

/-- The `while counter < MAX_COUNTER` loop of `CommandExecutor.wait_plan`.
`sched t` lists the plan-status messages processed before the `t`-th
condition check.  Faithful to the source: the loop body neither sleeps
nor increments `counter`, so the only exit is `plan_status_needed`
becoming false. -/
def wait_plan_loop (sched : Nat → List PlanMsg) (plan_name : List Char) :
    Bool → Nat → Nat → Nat → Option Nat
  | _, _, _, 0 => none
  | needed, counter, t, fuel + 1 =>
    if counter < MAX_COUNTER then
      let needed' := (sched t).foldl (plan_status_callback plan_name) needed
      if needed' = false then some 0
      else wait_plan_loop sched plan_name needed' counter (t + 1) fuel
    else
      some 1

/-- `CommandExecutor.wait_plan`: early-out on shutdown, then the poll
loop starting from `counter = 0` and the current `plan_status_needed`. -/
def wait_plan (shutdown : Bool) (sched : Nat → List PlanMsg)
    (plan_name : List Char) (needed : Bool) (fuel : Nat) : Option Nat :=
  if shutdown then some 1
  else wait_plan_loop sched plan_name needed 0 0 fuel

/-! ### Lemmas about the ack callback and the polling loop -/

lemma ack_callback_nonmatching (s : ClientState) (m : AckMsg)
    (h : m.cmd_id ≠ s.unique_cmd_id) : ack_callback s m = s := by
  unfold ack_callback
  rw [if_neg]
  rintro ⟨-, h2⟩
  exact h h2

lemma foldl_ack_nonmatching (l : List AckMsg) (s : ClientState)
    (h : ∀ m ∈ l, m.cmd_id ≠ s.unique_cmd_id) :
    l.foldl ack_callback s = s := by
  induction l with
  | nil => rfl
  | cons m rest ih =>
    have hm : ack_callback s m = s :=
      ack_callback_nonmatching s m (h m (by simp))
    simp only [List.foldl_cons, hm]
    exact ih fun m' hm' => h m' (by simp [hm'])

lemma waitLoop_no_match (sched : Nat → List AckMsg) (s : ClientState)
    (hs : s.ack_needed = true)
    (hnone : ∀ t m, m ∈ sched t → m.cmd_id ≠ s.unique_cmd_id) :
    ∀ fuel counter t slept, counter ≤ MAX_COUNTER →
      MAX_COUNTER - counter < fuel →
      waitLoop sched s counter t slept fuel =
        some (1, slept + (MAX_COUNTER - counter)) := by
  intro fuel
  induction fuel with
  | zero => intro counter t slept _ h; omega
  | succ fuel ih =>
    intro counter t slept hle hfuel
    by_cases hc : counter < MAX_COUNTER
    · have hfold : (sched t).foldl ack_callback s = s :=
        foldl_ack_nonmatching _ s (fun m hm => hnone t m hm)
      have hstep : waitLoop sched s counter t slept (fuel + 1) =
          waitLoop sched s (counter + 1) (t + 1) (slept + 1) fuel := by
        simp only [waitLoop, if_pos hc, hfold, hs]
        simp
      rw [hstep, ih (counter + 1) (t + 1) (slept + 1) (by omega) (by omega)]
      congr 2
      omega
    · have hceq : counter = MAX_COUNTER := by omega
      simp only [waitLoop, if_neg hc, hceq]
      simp

/-- C2: if no acknowledgment with the matching correlation identifier is
ever delivered, `publish_and_wait_response` returns failure (1) and has
performed exactly `MAX_COUNTER` one-second sleeps, no more, no fewer. -/
theorem publish_and_wait_timeout_exact (sched : Nat → List AckMsg)
    (s : ClientState) (fuel : Nat)
    (hnone : ∀ t m, m ∈ sched t → m.cmd_id ≠ s.unique_cmd_id)
    (hfuel : MAX_COUNTER < fuel) :
    publish_and_wait_response false sched s fuel = some (1, MAX_COUNTER) := by
  unfold publish_and_wait_response
  simp only [Bool.false_eq_true, if_false]
  have := waitLoop_no_match sched { s with ack_needed := true } rfl
    (fun t m hm => hnone t m hm) fuel 0 0 0 (by omega) (by omega)
  simpa using this

theorem publish_and_wait_timeout_exact_witness :
    ((∀ (t : Nat) (m : AckMsg),
        m ∈ (fun _ : Nat => ([] : List AckMsg)) t → m.cmd_id ≠ "sid") ∧
      MAX_COUNTER < 11) ∧
    publish_and_wait_response false (fun _ => [])
      ⟨true, ⟨"", 0, ""⟩, "sid"⟩ 11 = some (1, MAX_COUNTER) :=
  ⟨⟨by simp, by decide⟩,
    publish_and_wait_timeout_exact (fun _ => []) ⟨true, ⟨"", 0, ""⟩, "sid"⟩ 11
      (by simp) (by decide)⟩

/-- C1: while an acknowledgment is awaited, delivery of an ack whose
`cmd_id` matches `unique_cmd_id` with a terminal (non-`NOT`) status
resolves the wait at the very next poll: status `OK` yields 0, any
other terminal status yields 1, with no further sleep; and an ack whose
correlation identifier does not match never changes the client state,
so it can never resolve the wait. -/
theorem publish_and_wait_terminal_ack_resolves
    (sched : Nat → List AckMsg) (s : ClientState) (m : AckMsg)
    (counter t slept fuel : Nat)
    (hawait : s.ack_needed = true)
    (hmatch : m.cmd_id = s.unique_cmd_id)
    (hterm : m.status ≠ AckCompletedStatus.NOT)
    (hcount : counter < MAX_COUNTER)
    (hsched : sched t = [m]) :
    waitLoop sched s counter t slept (fuel + 1) =
        some (if m.status = AckCompletedStatus.OK then 0 else 1, slept)
    ∧ ∀ s' m', m'.cmd_id ≠ s'.unique_cmd_id → ack_callback s' m' = s' := by
  constructor
  · have hfold : (sched t).foldl ack_callback s =
        { s with ack_msg := m, ack_needed := false } := by
      rw [hsched]
      simp only [List.foldl_cons, List.foldl_nil]
      unfold ack_callback
      rw [if_pos ⟨hawait, hmatch⟩]
    by_cases hok : m.status = AckCompletedStatus.OK
    · simp only [waitLoop, if_pos hcount, hfold, hok]
      simp [hterm, hok, AckCompletedStatus.OK, AckCompletedStatus.NOT]
    · simp only [waitLoop, if_pos hcount, hfold]
      simp [hterm, hok]
  · exact fun s' m' h => ack_callback_nonmatching s' m' h

theorem publish_and_wait_terminal_ack_resolves_witness :
    ((true : Bool) = true ∧ "cid" = "cid" ∧
      (1 : Nat) ≠ AckCompletedStatus.NOT ∧ 0 < MAX_COUNTER ∧
      (fun _ : Nat => [(⟨"cid", 1, "done"⟩ : AckMsg)]) 0 = [⟨"cid", 1, "done"⟩]) ∧
    waitLoop (fun _ => [⟨"cid", 1, "done"⟩]) ⟨true, ⟨"", 0, ""⟩, "cid"⟩ 0 0 0 1 =
      some (if (1 : Nat) = AckCompletedStatus.OK then 0 else 1, 0) :=
  ⟨⟨rfl, rfl, by decide, by decide, rfl⟩,
    (publish_and_wait_terminal_ack_resolves (fun _ => [⟨"cid", 1, "done"⟩])
      ⟨true, ⟨"", 0, ""⟩, "cid"⟩ ⟨"cid", 1, "done"⟩ 0 0 0 0
      rfl rfl (by decide) (by decide) rfl).1⟩

/-- C3: while awaiting, delivery of a matching ack with the non-terminal
`NOT` status makes the poll re-arm `ack_needed` and continue with the
same `counter` and the same sleep count (the pass consumes no retry
iteration); and any pass on which the callbacks leave `ack_needed` set
continues with `counter` and the sleep count both incremented — only
passes without a resolved acknowledgment consume the budget. -/
theorem publish_and_wait_not_ack_rearms
    (sched : Nat → List AckMsg) (s s₂ : ClientState) (m : AckMsg)
    (counter t slept fuel : Nat)
    (hawait : s.ack_needed = true)
    (hmatch : m.cmd_id = s.unique_cmd_id)
    (hnot : m.status = AckCompletedStatus.NOT)
    (hcount : counter < MAX_COUNTER)
    (hsched : sched t = [m])
    (hstill : ((sched t).foldl ack_callback s₂).ack_needed = true) :
    waitLoop sched s counter t slept (fuel + 1) =
        waitLoop sched { s with ack_msg := m, ack_needed := true }
          counter (t + 1) slept fuel
    ∧ waitLoop sched s₂ counter t slept (fuel + 1) =
        waitLoop sched ((sched t).foldl ack_callback s₂)
          (counter + 1) (t + 1) (slept + 1) fuel := by
  constructor
  · have hfold : (sched t).foldl ack_callback s =
        { s with ack_msg := m, ack_needed := false } := by
      rw [hsched]
      simp only [List.foldl_cons, List.foldl_nil]
      unfold ack_callback
      rw [if_pos ⟨hawait, hmatch⟩]
    simp only [waitLoop, if_pos hcount, hfold, hnot]
    simp
  · simp only [waitLoop, if_pos hcount, hstill]
    simp

theorem publish_and_wait_not_ack_rearms_witness :
    ((true : Bool) = true ∧ "cid" = "cid" ∧
      (0 : Nat) = AckCompletedStatus.NOT ∧ 0 < MAX_COUNTER ∧
      (fun _ : Nat => [(⟨"cid", 0, "exec"⟩ : AckMsg)]) 0 = [⟨"cid", 0, "exec"⟩] ∧
      (((fun _ : Nat => [(⟨"cid", 0, "exec"⟩ : AckMsg)]) 0).foldl ack_callback
        ⟨true, ⟨"", 0, ""⟩, "other"⟩).ack_needed = true) ∧
    waitLoop (fun _ => [⟨"cid", 0, "exec"⟩]) ⟨true, ⟨"", 0, ""⟩, "cid"⟩ 0 0 0 1 =
      waitLoop (fun _ => [⟨"cid", 0, "exec"⟩])
        ⟨true, ⟨"cid", 0, "exec"⟩, "cid"⟩ 0 1 0 0 :=
  ⟨⟨rfl, rfl, rfl, by decide, rfl, by decide⟩,
    (publish_and_wait_not_ack_rearms (fun _ => [⟨"cid", 0, "exec"⟩])
      ⟨true, ⟨"", 0, ""⟩, "cid"⟩ ⟨true, ⟨"", 0, ""⟩, "other"⟩
      ⟨"cid", 0, "exec"⟩ 0 0 0 0 rfl rfl rfl (by decide) rfl (by decide)).1⟩

/-! ### `wait_plan` never terminates when the flag is not cleared -/

lemma wait_plan_loop_stuck (plan_name : List Char) :
    ∀ fuel counter t, counter < MAX_COUNTER →
      wait_plan_loop (fun _ => []) plan_name true counter t fuel = none := by
  intro fuel
  induction fuel with
  | zero => intro counter t _; rfl
  | succ fuel ih =>
    intro counter t hc
    simp only [wait_plan_loop, if_pos hc, List.foldl_nil]
    simp only [Bool.true_eq_false, if_false]
    exact ih counter (t + 1) hc

/-- C4 (refutation): `wait_plan` is NOT a bounded poll.  The loop body
never increments `counter` and never sleeps, so when the progress
callback never clears `plan_status_needed` the loop spins forever: for
every fuel bound it has not returned (`return 1` is unreachable).  The
true half of the claim does hold: once the flag is clear the next check
returns 0. -/
theorem wait_plan_unbounded_busy_loop :
    (∀ fuel : Nat,
      wait_plan false (fun _ => []) "p1".toList true fuel = none)
    ∧ (∀ fuel : Nat,
      wait_plan false (fun _ => []) "p1".toList false (fuel + 1) = some 0) := by
  constructor
  · intro fuel
    unfold wait_plan
    simp only [Bool.false_eq_true, if_false]
    exact wait_plan_loop_stuck _ fuel 0 0 (by decide)
  · intro fuel
    unfold wait_plan
    simp [wait_plan_loop, MAX_COUNTER]

/-! ### `ProcessExecutor.thread_write_output`: buffering before the
first console connection -/

/-- The filter pattern of the output thread: lines starting with
`"pos: x:"` (position telemetry) are not recorded. -/
def posTelemetry : List Char := "pos: x:".toList

/-- `chunksAux n l` slices `l` into successive `CHUNK_SIZE`-character
pieces (the `for i in range(0, len(encoded_message), CHUNK_SIZE)` loop);
`n` is a structural bound, always called with `n = l.length`. -/
def chunksAux : Nat → List Char → List (List Char)
  | 0, _ => []
  | _, [] => []
  | n + 1, c :: cs => (c :: cs).take CHUNK_SIZE :: chunksAux n ((c :: cs).drop CHUNK_SIZE)

/-- The chunk sequence `sendall` transmits for a message `l`. -/
def chunksOf (l : List Char) : List (List Char) := chunksAux l.length l

/-- The loop of `ProcessExecutor.thread_write_output`, run up to the
first successful console connection.  `reads` are the successive
`process.stdout.readline()` results while the loop is active (an empty
read means no complete line was available), `accept i` tells whether the
`sock_output.accept()` attempt of iteration `i` finds a console
connecting, `total` is the cumulative `output_total`.  Faithful to the
source: an empty read skips the whole body (no accept attempt); a
nonempty line is appended to `output_total` unless it starts with
`"pos: x:"`; on the first successful accept the whole of `output_total`
is flushed in `CHUNK_SIZE` chunks (the returned value).  `none` means no
console connected while `reads` lasted. -/
def thread_write_output :
    List (List Char) → (Nat → Bool) → Nat → List Char → Option (List (List Char))
  | [], _, _, _ => none
  | r :: rest, accept, i, total =>
    if r = [] then thread_write_output rest accept (i + 1) total
    else
      let total' := if beginsWith posTelemetry r then total else total ++ r
      if accept i then some (chunksOf total')
      else thread_write_output rest accept (i + 1) total'

/-- Lines the output thread records: nonempty and not position
telemetry. -/
def keepLine (r : List Char) : Bool := !r.isEmpty && !beginsWith posTelemetry r

/-- Modelled from the spec's words for the claim under test: the
delivery the claim promises — every line produced before the
connection, concatenated in production order. -/
def delivered_spec_all (reads : List (List Char)) : List Char := reads.flatten

/-- Modelled from the spec's words, amended by the source's filter: the
lines actually recorded (nonempty, non-telemetry), concatenated in
production order. -/
def delivered_spec_kept (reads : List (List Char)) : List Char :=
  (reads.filter keepLine).flatten

lemma chunksAux_flatten : ∀ (n : Nat) (l : List Char), l.length ≤ n →
    (chunksAux n l).flatten = l := by
  intro n
  induction n with
  | zero =>
    intro l hl
    have : l = [] := List.length_eq_zero.mp (Nat.le_zero.mp hl)
    simp [this, chunksAux]
  | succ n ih =>
    intro l hl
    match l with
    | [] => simp [chunksAux]
    | c :: cs =>
      have hd : ((c :: cs).drop CHUNK_SIZE).length ≤ n := by
        simp only [List.length_drop, List.length_cons, CHUNK_SIZE]
        simp only [List.length_cons] at hl
        omega
      simp only [chunksAux, List.flatten_cons]
      rw [ih _ hd, List.take_append_drop]

lemma chunksOf_flatten (l : List Char) : (chunksOf l).flatten = l :=
  chunksAux_flatten l.length l le_rfl

lemma thread_write_output_go (r : List Char) (hr : r ≠ []) :
    ∀ (pre : List (List Char)) (accept : Nat → Bool) (i : Nat) (total : List Char),
      (∀ j, accept j = decide (j = i + pre.length)) →
      thread_write_output (pre ++ [r]) accept i total =
        some (chunksOf (total ++ delivered_spec_kept (pre ++ [r]))) := by
  intro pre
  induction pre with
  | nil =>
    intro accept i total haccept
    match r, hr with
    | c :: cs, _ =>
      simp only [List.nil_append, thread_write_output]
      rw [if_neg (by simp)]
      have hacc : accept i = true := by rw [haccept i]; simp
      rw [if_pos hacc]
      by_cases hpos : beginsWith posTelemetry (c :: cs) = true
      · simp [hpos, delivered_spec_kept, keepLine]
      · simp [hpos, delivered_spec_kept, keepLine]
  | cons p pre' ih =>
    intro accept i total haccept
    by_cases hp : p = []
    · subst hp
      simp only [List.cons_append, thread_write_output, List.append_eq]
      rw [if_pos trivial]
      rw [ih accept (i + 1) total (fun j => by
        rw [haccept j]
        simp only [decide_eq_decide, List.length_cons]
        omega)]
      simp [delivered_spec_kept, List.filter_cons, keepLine]
    · simp only [List.cons_append, thread_write_output, List.append_eq]
      rw [if_neg hp]
      have hacc : accept i = false := by
        rw [haccept i]
        simp only [decide_eq_false_iff_not, List.length_cons]
        omega
      rw [hacc]
      simp only [Bool.false_eq_true, if_false]
      by_cases hpos : beginsWith posTelemetry p = true
      · simp only [hpos, if_pos]
        rw [ih accept (i + 1) total (fun j => by
          rw [haccept j]
          simp only [decide_eq_decide, List.length_cons]
          omega)]
        congr 2
        have hkeep : keepLine p = false := by simp [keepLine, hpos]
        simp [delivered_spec_kept, List.filter_cons, hkeep]
      · simp only [hpos, Bool.false_eq_true, if_false]
        rw [ih accept (i + 1) (total ++ p) (fun j => by
          rw [haccept j]
          simp only [decide_eq_decide, List.length_cons]
          omega)]
        congr 2
        have hkeep : keepLine p = true := by
          simp [keepLine, hpos, List.isEmpty_iff, hp]
        simp only [delivered_spec_kept, List.filter_cons, hkeep, if_pos,
          List.flatten_cons]
        rw [List.append_assoc]

/-- C5 (counterexample): a line starting with `"pos: x:"` produced
before the console connects is dropped: the flush on first connection
delivers nothing, while the claim's promised delivery (every produced
line, in order) is nonempty. -/
theorem thread_write_output_drops_pos_line :
    (thread_write_output ["pos: x: 0.1\n".toList] (fun _ => true) 0 []).map
        (fun cs => cs.flatten) = some []
    ∧ delivered_spec_all ["pos: x: 0.1\n".toList] ≠ [] :=
  ⟨by decide, by decide⟩

/-- C5 (amended): on the first console connection the output thread
flushes, in `CHUNK_SIZE` chunks whose concatenation is exactly the
in-order concatenation of every nonempty line produced so far that does
not start with `"pos: x:"` — those lines are all buffered, none
dropped, none reordered; lines starting with `"pos: x:"` are the only
produced lines excluded. -/
theorem thread_write_output_flushes_kept_lines
    (pre : List (List Char)) (r : List Char) (hr : r ≠ []) :
    thread_write_output (pre ++ [r]) (fun j => decide (j = pre.length)) 0 [] =
        some (chunksOf (delivered_spec_kept (pre ++ [r])))
    ∧ (chunksOf (delivered_spec_kept (pre ++ [r]))).flatten =
        delivered_spec_kept (pre ++ [r]) := by
  constructor
  · have := thread_write_output_go r hr pre
      (fun j => decide (j = pre.length)) 0 [] (fun j => by simp)
    simpa using this
  · exact chunksOf_flatten _

theorem thread_write_output_flushes_kept_lines_witness :
    "b\n".toList ≠ [] ∧
    thread_write_output
        (["a\n".toList, [], "pos: x: 1\n".toList] ++ ["b\n".toList])
        (fun j => decide (j = (["a\n".toList, [], "pos: x: 1\n".toList] :
          List (List Char)).length)) 0 [] =
      some (chunksOf (delivered_spec_kept
        (["a\n".toList, [], "pos: x: 1\n".toList] ++ ["b\n".toList]))) :=
  ⟨by decide,
    (thread_write_output_flushes_kept_lines
      ["a\n".toList, [], "pos: x: 1\n".toList] "b\n".toList (by decide)).1⟩

/-! ### `ProcessExecutor.send_command`: exceptions at the boundary -/

/-- Python exception classes relevant to the embedding. -/
inductive PyErr where
  | nameError
  | attributeError
deriving DecidableEq

/-- How the try-suite of `ProcessExecutor.send_command` goes.
`completes c`: `subprocess.Popen` succeeds, the wait loop finishes and
`process.poll()` yields `c`.  `raisesAtLaunch`: `Popen` itself raises
(e.g. `OSError`), so the locals `process`, `input_thread` and
`output_thread` are never bound.  `raisesDuringWait`: an exception
after the threads started (e.g. `rospy.sleep` interrupted), with all
locals bound and `return_code` still at its initial value 1. -/
inductive LaunchOutcome where
  | completes (exitCode : Int)
  | raisesAtLaunch
  | raisesDuringWait
deriving DecidableEq

/-- State after the try-suite of `send_command`: the local
`return_code` (initialised to 1, overwritten by `process.poll()` only
on completion), whether the locals `process` and the two thread
handles are bound, and whether an exception is propagating out of the
suite (always of a class matched by `except Exception`). -/
structure TryResult where
  return_code : Int
  processBound : Bool
  threadsBound : Bool
  raised : Bool
deriving DecidableEq

/-- The try-suite of `send_command`. -/
def send_command_try : LaunchOutcome → TryResult
  | .completes c => ⟨c, true, true, false⟩
  | .raisesAtLaunch => ⟨1, false, false, true⟩
  | .raisesDuringWait => ⟨1, true, true, true⟩

/-- The `except Exception` suite of `send_command`: it prints and then
evaluates `process.kill()` — a `NameError` if `process` was never
bound. -/
def send_command_handler (r : TryResult) : Option PyErr :=
  if r.processBound then none else some .nameError

/-- The `finally` suite of `send_command`: sets the stop event, then
evaluates `output_thread.is_alive()` and the joins — a `NameError` if
the thread locals were never bound — and otherwise executes
`return return_code`. -/
def send_command_final (r : TryResult) : Except PyErr Int :=
  if r.threadsBound then .ok r.return_code else .error .nameError

/-- `ProcessExecutor.send_command` as a whole: value returned, or
exception escaping the call.  Python semantics of the composition: the
`finally` suite always runs; if it raises, that exception propagates
(replacing any pending one); otherwise its `return` swallows any
exception pending from the handler, so the handler outcome never
escapes. -/
def send_command (launch : LaunchOutcome) : Except PyErr Int :=
  let r := send_command_try launch
  let pending : Option PyErr :=
    if r.raised then send_command_handler r else none
  match send_command_final r, pending with
  | .error e, _ => .error e
  | .ok v, _ => .ok v

/-- C6: `send_command` does return the process's exit code on
completion, and the non-zero sentinel 1 on a fault after launch — but
when the launch itself fails, the cleanup code references the unbound
locals `process` and `output_thread`, and a `NameError` escapes the
`send_command` boundary instead of the promised non-zero integer. -/
theorem send_command_launch_failure_raises :
    send_command LaunchOutcome.raisesAtLaunch = Except.error PyErr.nameError
    ∧ (∀ c : Int, send_command (LaunchOutcome.completes c) = Except.ok c)
    ∧ send_command LaunchOutcome.raisesDuringWait = Except.ok 1 :=
  ⟨rfl, fun _ => rfl, rfl⟩

/-! ### The two retry routines -/

/-- ASCII case folding, the effect of Python's `str.lower` on the
operator replies (which arrive through an `ascii`-decoded socket). -/
def asciiLower (c : Char) : Char :=
  if 'A' ≤ c ∧ c ≤ 'Z' then Char.ofNat (c.toNat + 32) else c

/-- `str.lower()` on a reply. -/
def strLower (s : List Char) : List Char := s.map asciiLower

/-- The `while exit_code != 0 and not rospy.is_shutdown()` loop of
`ProcessExecutor.send_command_recursive`, together with the recursion
on `"yes"`.  `act k` is the integer result of the `k`-th invocation of
`send_command(command)` (the action is opaque here), `shutdown` the
ambient `rospy.is_shutdown()`, `e` the current `exit_code`, `k` the
number of invocations already made, and the list holds the successive
operator replies read by `read_input_once`.  An exhausted reply list
means the blocking read never returns: `none`. -/
def send_command_recursive_loop (act : Nat → Int) (shutdown : Bool) :
    Int → Nat → List (List Char) → Option Int
  | e, _, [] => if e = 0 ∨ shutdown = true then some e else none
  | e, k, r :: rest =>
    if e = 0 ∨ shutdown = true then some e
    else
      let rep := strLower r
      if rep = "yes".toList then
        send_command_recursive_loop act shutdown (act (k + 1)) (k + 1) rest
      else if rep = "no".toList then some e
      else if rep = "skip".toList then some 0
      else send_command_recursive_loop act shutdown e k rest

/-- `ProcessExecutor.send_command_recursive`: run the command once,
then the retry loop. -/
def send_command_recursive (act : Nat → Int) (shutdown : Bool)
    (replies : List (List Char)) : Option Int :=
  send_command_recursive_loop act shutdown (act 0) 0 replies

/-- The retry loop of `survey_manager_executor_recursive`, with the
recursion on `"yes"`; `act n` is the integer result of
`survey_manager_executor(command_names, f"run\x7bn\x7d", ...)` and `n`
the current `run_number`. -/
def survey_manager_executor_recursive_loop (act : Nat → Int) (shutdown : Bool) :
    Int → Nat → List (List Char) → Option Int
  | e, _, [] => if e = 0 ∨ shutdown = true then some e else none
  | e, n, r :: rest =>
    if e = 0 ∨ shutdown = true then some e
    else
      let rep := strLower r
      if rep = "yes".toList then
        survey_manager_executor_recursive_loop act shutdown (act (n + 1)) (n + 1) rest
      else if rep = "no".toList then some e
      else if rep = "skip".toList then some 0
      else survey_manager_executor_recursive_loop act shutdown e n rest

/-- `survey_manager_executor_recursive`: run the survey once at the
given `run_number`, then the retry loop. -/
def survey_manager_executor_recursive (act : Nat → Int) (shutdown : Bool)
    (run_number : Nat) (replies : List (List Char)) : Option Int :=
  survey_manager_executor_recursive_loop act shutdown (act run_number)
    run_number replies

lemma retry_loops_eq (act : Nat → Int) (shutdown : Bool) (e : Int) (k : Nat)
    (replies : List (List Char)) :
    send_command_recursive_loop act shutdown e k replies =
      survey_manager_executor_recursive_loop act shutdown e k replies := by
  induction replies generalizing e k with
  | nil => rfl
  | cons r rest ih =>
    simp only [send_command_recursive_loop,
      survey_manager_executor_recursive_loop, ih]

lemma send_loop_done (act : Nat → Int) (shutdown : Bool) (e : Int) (k : Nat)
    (replies : List (List Char)) (he : e = 0 ∨ shutdown = true) :
    send_command_recursive_loop act shutdown e k replies = some e := by
  cases replies <;> simp [send_command_recursive_loop, he]

lemma survey_loop_done (act : Nat → Int) (shutdown : Bool) (e : Int) (n : Nat)
    (replies : List (List Char)) (he : e = 0 ∨ shutdown = true) :
    survey_manager_executor_recursive_loop act shutdown e n replies = some e := by
  cases replies <;> simp [survey_manager_executor_recursive_loop, he]

lemma send_loop_shift (replies : List (List Char)) :
    ∀ (act : Nat → Int) (shutdown : Bool) (e : Int) (k : Nat),
      send_command_recursive_loop act shutdown e (k + 1) replies =
        send_command_recursive_loop (fun i => act (i + 1)) shutdown e k replies := by
  induction replies with
  | nil => intro act sh e k; rfl
  | cons r rest ih =>
    intro act sh e k
    simp only [send_command_recursive_loop, ih]

/-- C9: the process-level retry routine and the survey-level retry
routine implement the same prompt/read/branch logic: started from the
same current result, invocation index and reply sequence their loops
are equal, and the whole routines agree for every action outcome
stream and reply sequence. -/
theorem retry_routines_equivalent :
    (∀ (act : Nat → Int) (shutdown : Bool) (e : Int) (k : Nat)
        (replies : List (List Char)),
      send_command_recursive_loop act shutdown e k replies =
        survey_manager_executor_recursive_loop act shutdown e k replies)
    ∧ ∀ (act : Nat → Int) (shutdown : Bool) (replies : List (List Char)),
      send_command_recursive act shutdown replies =
        survey_manager_executor_recursive act shutdown 0 replies :=
  ⟨fun act sh e k replies => retry_loops_eq act sh e k replies,
    fun act sh replies => retry_loops_eq act sh (act 0) 0 replies⟩

/-- C7: when the action has failed (non-zero result) and the operator's
(case-normalized) reply is `"skip"`, both retry routines stop looping
and return 0, a forced success. -/
theorem retry_skip_forces_zero (act : Nat → Int) (r : List Char)
    (rest : List (List Char)) (n : Nat)
    (h0 : act 0 ≠ 0) (hn : act n ≠ 0)
    (hr : strLower r = "skip".toList) :
    send_command_recursive act false (r :: rest) = some 0
    ∧ survey_manager_executor_recursive act false n (r :: rest) = some 0 := by
  have hy : ¬ strLower r = "yes".toList := by rw [hr]; decide
  have hno : ¬ strLower r = "no".toList := by rw [hr]; decide
  constructor
  · have hcond : ¬ (act 0 = 0 ∨ (false : Bool) = true) := by simp [h0]
    simp only [send_command_recursive, send_command_recursive_loop]
    rw [if_neg hcond, if_neg hy, if_neg hno, if_pos hr]
  · have hcond : ¬ (act n = 0 ∨ (false : Bool) = true) := by simp [hn]
    simp only [survey_manager_executor_recursive,
      survey_manager_executor_recursive_loop]
    rw [if_neg hcond, if_neg hy, if_neg hno, if_pos hr]

theorem retry_skip_forces_zero_witness :
    ((fun _ : Nat => (1 : Int)) 0 ≠ 0 ∧ (fun _ : Nat => (1 : Int)) 2 ≠ 0 ∧
      strLower "Skip".toList = "skip".toList) ∧
    (send_command_recursive (fun _ => 1) false ["Skip".toList] = some 0
      ∧ survey_manager_executor_recursive (fun _ => 1) false 2
          ["Skip".toList] = some 0) :=
  ⟨⟨by decide, by decide, by decide⟩,
    retry_skip_forces_zero (fun _ => 1) "Skip".toList [] 2
      (by decide) (by decide) (by decide)⟩

/-- C8: when the first execution fails and the (case-normalized) reply
is `"yes"`, each retry routine recursively invokes itself on the same
action, adopts the recursive call's result as its own, and stops its
own loop; in particular if the retried invocation returns 0 the overall
result is 0.  (For the process-level routine the recursive call is the
routine on the action stream shifted by one invocation; for the
survey-level routine it is the routine at `run_number + 1`.) -/
theorem retry_yes_adopts_recursive_result (act : Nat → Int) (r : List Char)
    (rest : List (List Char)) (n : Nat)
    (h0 : act 0 ≠ 0) (hn : act n ≠ 0)
    (hr : strLower r = "yes".toList) :
    send_command_recursive act false (r :: rest) =
        send_command_recursive (fun i => act (i + 1)) false rest
    ∧ (act 1 = 0 → send_command_recursive act false (r :: rest) = some 0)
    ∧ survey_manager_executor_recursive act false n (r :: rest) =
        survey_manager_executor_recursive act false (n + 1) rest
    ∧ (act (n + 1) = 0 →
        survey_manager_executor_recursive act false n (r :: rest) = some 0) := by
  have h1 : send_command_recursive act false (r :: rest) =
      send_command_recursive (fun i => act (i + 1)) false rest := by
    have hcond : ¬ (act 0 = 0 ∨ (false : Bool) = true) := by simp [h0]
    simp only [send_command_recursive, send_command_recursive_loop]
    rw [if_neg hcond, if_pos hr, send_loop_shift]
  have h3 : survey_manager_executor_recursive act false n (r :: rest) =
      survey_manager_executor_recursive act false (n + 1) rest := by
    have hcond : ¬ (act n = 0 ∨ (false : Bool) = true) := by simp [hn]
    simp only [survey_manager_executor_recursive,
      survey_manager_executor_recursive_loop]
    rw [if_neg hcond, if_pos hr]
  refine ⟨h1, fun hz => ?_, h3, fun hz => ?_⟩
  · rw [h1]
    have : send_command_recursive (fun i => act (i + 1)) false rest =
        some ((fun i => act (i + 1)) 0) :=
      send_loop_done _ false _ 0 rest (Or.inl hz)
    rw [this]
    simp [hz]
  · rw [h3]
    have : survey_manager_executor_recursive act false (n + 1) rest =
        some (act (n + 1)) :=
      survey_loop_done act false _ (n + 1) rest (Or.inl hz)
    rw [this, hz]

theorem retry_yes_adopts_recursive_result_witness :
    ((fun i : Nat => if i = 0 then (1 : Int) else 0) 0 ≠ 0 ∧
      strLower "YES".toList = "yes".toList ∧
      (fun i : Nat => if i = 0 then (1 : Int) else 0) 1 = 0) ∧
    send_command_recursive (fun i => if i = 0 then 1 else 0) false
      ["YES".toList] = some 0 :=
  ⟨⟨by decide, by decide, by decide⟩,
    (retry_yes_adopts_recursive_result (fun i => if i = 0 then 1 else 0)
      "YES".toList [] 0 (by decide) (by decide) (by decide)).2.1 (by decide)⟩

/-! ### `ProcessExecutor.read_input_once` and the retry prompt -/

/-- Outcomes of one `recv` attempt inside `read_input_once`:
`socket.timeout` (retry), `ConnectionResetError` (break), or data. -/
inductive RecvEvent where
  | timeout
  | connReset
  | data (s : List Char)
deriving DecidableEq

/-- What a call to `read_input_once` does. -/
inductive ReadOutcome where
  | blocked
  | returnsNone
  | returnsString (s : List Char)
deriving DecidableEq

/-- `ProcessExecutor.read_input_once`, from its receive loop on.  (The
preceding accept loop also exits when the stop event is set, which the
receive loop then observes: `stop 0 = true` covers "stop set before any
data".)  `stop t` is the stop event at the `t`-th loop check, `events`
the successive `recv` outcomes.  On `stop`: the `while` exits and the
function falls off the end — Python returns `None`.  On
`ConnectionResetError`: `sock_input_connected` is cleared and the loop
breaks — again `None`.  Only a successful `recv` returns a string.
`blocked` means the call is still waiting when the modelled events run
out. -/
def read_input_once (stop : Nat → Bool) : List RecvEvent → Nat → ReadOutcome
  | [], t => if stop t then .returnsNone else .blocked
  | e :: rest, t =>
    if stop t then .returnsNone
    else
      match e with
      | .data s => .returnsString s
      | .timeout => read_input_once stop rest (t + 1)
      | .connReset => .returnsNone

/-- Outcome of the `repeat = self.read_input_once().lower()` line shared
by `send_command_recursive` and `survey_manager_executor_recursive`. -/
inductive PromptOutcome where
  | decision (s : List Char)
  | raisesAttrError
  | blocked
deriving DecidableEq

/-- The prompt-read step of both retry routines: `.lower()` is applied
unconditionally to whatever `read_input_once` produced; on `None` this
raises `AttributeError`. -/
def prompt_read_lower (stop : Nat → Bool) (events : List RecvEvent)
    (t : Nat) : PromptOutcome :=
  match read_input_once stop events t with
  | .returnsString s => .decision (strLower s)
  | .returnsNone => .raisesAttrError
  | .blocked => .blocked

/-- C10: `read_input_once` does not always return a string — when the
stop event is set at entry, or when the connection is reset during the
receive loop, it returns `None` — and the retry-prompt step of both
retry routines then raises `AttributeError` instead of producing an
operator decision. -/
theorem read_input_once_none_crashes_retry_prompt
    (stop stop2 : Nat → Bool) (events rest : List RecvEvent) (t t2 : Nat)
    (h1 : stop t = true) (h2 : stop2 t2 = false) :
    read_input_once stop events t = ReadOutcome.returnsNone
    ∧ prompt_read_lower stop events t = PromptOutcome.raisesAttrError
    ∧ read_input_once stop2 (RecvEvent.connReset :: rest) t2 =
        ReadOutcome.returnsNone
    ∧ prompt_read_lower stop2 (RecvEvent.connReset :: rest) t2 =
        PromptOutcome.raisesAttrError := by
  have ha : read_input_once stop events t = ReadOutcome.returnsNone := by
    cases events <;> simp [read_input_once, h1]
  have hb : read_input_once stop2 (RecvEvent.connReset :: rest) t2 =
      ReadOutcome.returnsNone := by
    simp [read_input_once, h2]
  exact ⟨ha, by simp [prompt_read_lower, ha], hb, by simp [prompt_read_lower, hb]⟩

theorem read_input_once_none_crashes_retry_prompt_witness :
    ((fun _ : Nat => true) 0 = true ∧ (fun _ : Nat => false) 0 = false) ∧
    (read_input_once (fun _ => true) [] 0 = ReadOutcome.returnsNone
      ∧ prompt_read_lower (fun _ => true) [] 0 = PromptOutcome.raisesAttrError
      ∧ read_input_once (fun _ => false) [RecvEvent.connReset] 0 =
          ReadOutcome.returnsNone
      ∧ prompt_read_lower (fun _ => false) [RecvEvent.connReset] 0 =
          PromptOutcome.raisesAttrError) :=
  ⟨⟨rfl, rfl⟩,
    read_input_once_none_crashes_retry_prompt (fun _ => true) (fun _ => false)
      [] [] 0 0 rfl rfl⟩
